import Mathlib

/-!
Shallow embedding of `src/credentials-manager.js` (the `CredentialsManager`
class of the gsts project).

Modelling conventions:
* Timestamps are `Int` milliseconds since the Unix epoch, matching JavaScript
  `Date.getTime()` / `Date.now()`.
* The credentials file is modelled at the granularity of its `ini`-parsed
  content: a `Store` is the association list of sections (profile name to
  profile), and a `Profile` is the association list of its string-valued keys.
  `ini.parse` / `ini.encode` (an external library) are treated as inverse to
  each other at this granularity, so reading a file yields its `Store` and the
  written file content is identified with the written `Store`.
* JavaScript object property access `obj[k]` is `jsGet`, and property
  assignment `obj[k] = v` is `jsSet` (replaces the entry in place when the key
  exists, appends otherwise, as JS object key ordering does).
* File-system reads are reified by `FsReadResult`: a successful read of the
  file content, or a thrown error carrying its `code` string (`"ENOENT"` for a
  missing file).  Thrown/propagated exceptions become `Except.error`.
* JavaScript truthiness tests on optional arguments (`if (profile)`,
  `if (!customRoleArn)`, `if (customSessionDuration)`) are modelled by the
  `jsTruthy*` helpers: `undefined`, `""` and `0` are falsy.
* `Date.prototype.toISOString` and ISO-8601 parsing by `new Date(string)` are
  implemented executably via the standard civil-from-days / days-from-civil
  calendar algorithms.  The parser `parseJsDateMillis` covers the canonical
  complete format `YYYY-MM-DDTHH:mm:ss.sssZ` (with expanded `±YYYYYY` years),
  i.e. exactly the strings `toISOString` produces; on other strings it returns
  `none`, which models a `NaN` `getTime()`.
-/

/-- One profile section of the credentials file: string keys to string values,
in file order (the shape `ini.parse` yields for a section). -/
abbrev Profile := List (String × String)

/-- The parsed credentials file: profile name to profile section, in file
order. -/
abbrev Store := List (String × Profile)

/-- JavaScript property read `obj[key]` on an object modelled as an
association list: first entry with the key, `none` for `undefined`. -/
def jsGet {α : Type} : List (String × α) → String → Option α
  | [], _ => none
  | (k, v) :: rest, key => if k == key then some v else jsGet rest key

/-- JavaScript property write `obj[key] = v`: replaces the first entry with
the key in place (JS objects keep the original key position), appends a new
entry otherwise. -/
def jsSet {α : Type} : List (String × α) → String → α → List (String × α)
  | [], key, v => [(key, v)]
  | (k, w) :: rest, key, v =>
      if k == key then (key, v) :: rest else (k, w) :: jsSet rest key v

/-- JavaScript truthiness of an optional string argument: `undefined` and the
empty string are falsy. -/
def jsTruthyStrOpt : Option String → Bool
  | none => false
  | some s => !(s == "")

/-- JavaScript truthiness of an optional number argument: `undefined` and `0`
are falsy. -/
def jsTruthyNumOpt : Option Int → Bool
  | none => false
  | some n => !(n == 0)

/-! ### Calendar arithmetic for `Date` (proleptic Gregorian, UTC) -/

/-- Civil date (year, month, day) of a day count relative to 1970-01-01
(Hinnant's `civil_from_days`). -/
def civilFromDays (z0 : Int) : Int × Nat × Nat :=
  let z := z0 + 719468
  let era := z.fdiv 146097
  let doe := (z - era * 146097).toNat
  let yoe := (doe - doe / 1460 + doe / 36524 - doe / 146096) / 365
  let y := (yoe : Int) + era * 400
  let doy := doe - (365 * yoe + yoe / 4 - yoe / 100)
  let mp := (5 * doy + 2) / 153
  let d := doy - (153 * mp + 2) / 5 + 1
  let m := if mp < 10 then mp + 3 else mp - 9
  (if m ≤ 2 then y + 1 else y, m, d)

/-- Day count relative to 1970-01-01 of a civil date (Hinnant's
`days_from_civil`). -/
def daysFromCivil (y0 : Int) (m d : Nat) : Int :=
  let y := if m ≤ 2 then y0 - 1 else y0
  let era := y.fdiv 400
  let yoe := (y - era * 400).toNat
  let mp := (m + 9) % 12
  let doy := (153 * mp + 2) / 5 + d - 1
  let doe := yoe * 365 + yoe / 4 - yoe / 100 + doy
  era * 146097 + (doe : Int) - 719468

/-- Gregorian leap-year test. -/
def isLeapYear (y : Int) : Bool :=
  (y.fmod 4 == 0 && y.fmod 100 != 0) || y.fmod 400 == 0

/-- Number of days in a month of a given year. -/
def daysInMonth (y : Int) (m : Nat) : Nat :=
  if m = 2 then (if isLeapYear y then 29 else 28)
  else if m = 4 ∨ m = 6 ∨ m = 9 ∨ m = 11 then 30
  else 31

/-- Decimal rendering of a natural number left-padded with zeros to a given
width. -/
def padNum (width n : Nat) : String :=
  let s := toString n
  if s.length < width then String.mk (List.replicate (width - s.length) '0') ++ s
  else s

/-- The year field of `Date.prototype.toISOString`: four digits for years 0
to 9999, expanded sign-plus-six-digits form otherwise. -/
def isoYearString (y : Int) : String :=
  if 0 ≤ y ∧ y ≤ 9999 then padNum 4 y.toNat
  else if y < 0 then "-" ++ padNum 6 (-y).toNat
  else "+" ++ padNum 6 y.toNat

/-- `Date.prototype.toISOString` on a millisecond timestamp:
`YYYY-MM-DDTHH:mm:ss.sssZ`. -/
def toISOString (ms : Int) : String :=
  let days := ms.fdiv 86400000
  let msod := (ms.fmod 86400000).toNat
  let ymd := civilFromDays days
  isoYearString ymd.1 ++ "-" ++ padNum 2 ymd.2.1 ++ "-" ++ padNum 2 ymd.2.2
    ++ "T" ++ padNum 2 (msod / 3600000)
    ++ ":" ++ padNum 2 (msod % 3600000 / 60000)
    ++ ":" ++ padNum 2 (msod % 60000 / 1000)
    ++ "." ++ padNum 3 (msod % 1000) ++ "Z"

/-- Read exactly `n` decimal digits from the front of a character list,
accumulating their value. -/
def takeDigitsAux : Nat → Nat → List Char → Option (Nat × List Char)
  | 0, acc, l => some (acc, l)
  | _ + 1, _, [] => none
  | n + 1, acc, c :: rest =>
      if c.isDigit then takeDigitsAux n (acc * 10 + (c.toNat - 48)) rest
      else none

/-- Read exactly `n` decimal digits from the front of a character list. -/
def takeDigits (n : Nat) (l : List Char) : Option (Nat × List Char) :=
  takeDigitsAux n 0 l

/-- Consume one expected character from the front of a character list. -/
def expectChar (c : Char) : List Char → Option (List Char)
  | x :: rest => if x == c then some rest else none
  | [] => none

/-- Parse the year field of an ISO-8601 date-time string: four digits, or a
sign followed by six digits (the expanded-year form). -/
def parseIsoYear : List Char → Option (Int × List Char)
  | '+' :: rest => (takeDigits 6 rest).map (fun p => ((p.1 : Int), p.2))
  | '-' :: rest => (takeDigits 6 rest).map (fun p => (-(p.1 : Int), p.2))
  | l => (takeDigits 4 l).map (fun p => ((p.1 : Int), p.2))

/-- Read exactly `n` decimal digits followed by one expected separator
character. -/
def takeDigitsSep (n : Nat) (c : Char) (l : List Char) : Option (Nat × List Char) :=
  match takeDigits n l with
  | none => none
  | some p =>
      match expectChar c p.2 with
      | none => none
      | some r => some (p.1, r)

/-- Parse the `YYYY-MM-DDT` prefix of an ISO-8601 date-time string: year,
month, day and the remaining characters. -/
def parseIsoDatePart (l : List Char) : Option (Int × Nat × Nat × List Char) := do
  let py ← parseIsoYear l
  let r ← expectChar '-' py.2
  let pm ← takeDigitsSep 2 '-' r
  let pd ← takeDigitsSep 2 'T' pm.2
  some (py.1, pm.1, pd.1, pd.2)

/-- Parse the `HH:mm:ss.sssZ` tail of an ISO-8601 date-time string: hour,
minute, second, millisecond and the remaining characters. -/
def parseIsoTimePart (l : List Char) : Option (Nat × Nat × Nat × Nat × List Char) := do
  let ph ← takeDigitsSep 2 ':' l
  let pmi ← takeDigitsSep 2 ':' ph.2
  let ps ← takeDigitsSep 2 '.' pmi.2
  let pms ← takeDigitsSep 3 'Z' ps.2
  some (ph.1, pmi.1, ps.1, pms.1, pms.2)

/-- Millisecond timestamp of an ISO-8601 string as computed by JavaScript
`new Date(s).getTime()`, restricted to the canonical complete format
`YYYY-MM-DDTHH:mm:ss.sssZ` that `toISOString` produces; `none` models `NaN`
(unrecognised or out-of-range strings). -/
def parseJsDateMillis (s : String) : Option Int := do
  let pd ← parseIsoDatePart s.data
  let pt ← parseIsoTimePart pd.2.2.2
  let y := pd.1
  let mo := pd.2.1
  let dd := pd.2.2.1
  let hh := pt.1
  let mi := pt.2.1
  let ss := pt.2.2.1
  let ms3 := pt.2.2.2.1
  if pt.2.2.2.2 = [] ∧ 1 ≤ mo ∧ mo ≤ 12 ∧ 1 ≤ dd ∧ dd ≤ daysInMonth y mo
      ∧ hh ≤ 23 ∧ mi ≤ 59 ∧ ss ≤ 59 then
    some (daysFromCivil y mo dd * 86400000
      + ((hh * 3600000 + mi * 60000 + ss * 1000 + ms3 : Nat) : Int))
  else none

/-! ### Data model of the CredentialsManager -/

/-- One role extracted from the SAML assertion by the external parser:
`{ name, principalArn, roleArn, sessionDuration }` as consumed by
`assumeRoleWithSAML` and `prepareRoleWithSAML`. -/
structure Role where
  name : String
  principalArn : String
  roleArn : String
  sessionDuration : Int
deriving DecidableEq, Repr

/-- The `{ roles, samlAssertion }` object produced by the external SAML
parser and returned by `prepareRoleWithSAML`. -/
structure RoleSet where
  roles : List Role
  samlAssertion : String
deriving DecidableEq, Repr

/-- Errors thrown by `prepareRoleWithSAML`: `RoleNotFoundError` carries the
full list of parsed roles (see `src/errors.js` usage at line 45). -/
inductive PrepareError where
  | roleNotFound (roles : List Role)
deriving DecidableEq, Repr

/-- The credential fields handed to `saveCredentials` (built from the STS
response at lines 86–91): access key id, secret access key, session
expiration (a `Date`, i.e. a millisecond timestamp) and session token. -/
structure SessionCredentials where
  accessKeyId : String
  secretAccessKey : String
  sessionExpiration : Int
  sessionToken : String
deriving DecidableEq, Repr

/-- The `Credentials` part of the STS `assumeRoleWithSAML` response. -/
structure STSCredentials where
  AccessKeyId : String
  SecretAccessKey : String
  SessionToken : String
  Expiration : Int
deriving DecidableEq, Repr

/-- Outcome of one file read by `fs.readFile`: the (already `ini`-parsed)
content on success, or the `code` of the thrown error (`"ENOENT"` when the
file does not exist). -/
inductive FsReadResult where
  | content (st : Store)
  | ioError (code : String)
deriving DecidableEq, Repr

/-- Value returned by `loadCredentials`: JavaScript `undefined` (missing
file, or requested profile not present), the whole parsed config (no profile
requested, or a falsy profile name), or one profile section. -/
inductive LoadedConfig where
  | missing
  | config (st : Store)
  | profileSection (p : Profile)
deriving DecidableEq, Repr

/-- The `{ isValid, expiresAt }` result of
`getSessionExpirationFromCredentials`.  `expiresAt` is `null`, `NaN` (an
unparsable stored expiration) or a millisecond timestamp. -/
inductive ExpiresAtValue where
  | null
  | nan
  | time (ms : Int)
deriving DecidableEq, Repr

/-- Result record of `getSessionExpirationFromCredentials`. -/
structure ValidityResult where
  isValid : Bool
  expiresAt : ExpiresAtValue
deriving DecidableEq, Repr

/-! ### The CredentialsManager operations (lines 30–177 of
`src/credentials-manager.js`) -/

/-- Delta (in milliseconds) between the exact expiration date and the current
date: `SESSION_EXPIRATION_DELTA = 30e3` (line 16), stored on the instance as
`sessionExpirationDelta` (line 26). -/
def sessionExpirationDelta : Int := 30000

/-- Lines 30–54, after the external SAML parser has produced
`{ roles, samlAssertion }` (parsing raw XML is out of scope): if
`customRoleArn` is falsy (`undefined` or `""`) return all parsed roles;
otherwise return only the role whose `roleArn` strictly equals it, or throw
`RoleNotFoundError` carrying all roles. -/
def prepareRoleWithSAML (parsed : RoleSet) (customRoleArn : Option String) :
    Except PrepareError RoleSet :=
  if !(jsTruthyStrOpt customRoleArn) then
    .ok ⟨parsed.roles, parsed.samlAssertion⟩
  else
    match parsed.roles.find? (fun role => role.roleArn == customRoleArn.getD "") with
    | none => .error (.roleNotFound parsed.roles)
    | some customRole => .ok ⟨[customRole], parsed.samlAssertion⟩

/-- Lines 100–121: read the credentials file; a thrown `ENOENT` is swallowed
(the function returns `undefined`), any other read error propagates; the
parsed config (or, for a truthy `profile` argument, the section
`config[profile]`) is returned. -/
def loadCredentials (file : FsReadResult) (profile : Option String) :
    Except String LoadedConfig :=
  match file with
  | .ioError code =>
      if code == "ENOENT" then .ok .missing else .error code
  | .content config =>
      if jsTruthyStrOpt profile then
        match jsGet config (profile.getD "") with
        | none => .ok .missing
        | some p => .ok (.profileSection p)
      else .ok (.config config)

/-- The fresh section object built by `saveCredentials` (lines 135–139):
exactly the four flat keys, in assignment order, with the expiration
serialized by `toISOString`. -/
def profileOfCredentials (c : SessionCredentials) : Profile :=
  [("aws_access_key_id", c.accessKeyId),
   ("aws_secret_access_key", c.secretAccessKey),
   ("aws_session_expiration", toISOString c.sessionExpiration),
   ("aws_session_token", c.sessionToken)]

/-- Lines 127–145: load the existing full config (treating a missing file as
an empty object), replace only the entry for `profile` with the four new
fields, and write the whole mapping back (`fs.mkdir` and the `ini.encode` /
`fs.writeFile` step are modelled by returning the written `Store`; a load
error propagates). -/
def saveCredentials (file : FsReadResult) (profile : String)
    (c : SessionCredentials) : Except String Store :=
  match loadCredentials file none with
  | .error e => .error e
  | .ok loaded =>
      let credentials := match loaded with
        | .config st => st
        | _ => []
      .ok (jsSet credentials profile (profileOfCredentials c))

/-- Lines 153–177: load the profile section, and report
`{ isValid: false, expiresAt: null }` when it (or its
`aws_session_expiration` key) is absent or falsy; otherwise compare
`new Date(stored).getTime() - sessionExpirationDelta` strictly against
`Date.now()` (the `now` argument), reporting the adjusted timestamp either
way.  In the degenerate case where the falsy `profile` name made
`loadCredentials` return the whole config, `credentials.aws_session_expiration`
is a section object, which is truthy and parses as `NaN`. -/
def getSessionExpirationFromCredentials (file : FsReadResult) (profile : String)
    (now : Int) : Except String ValidityResult :=
  match loadCredentials file (some profile) with
  | .error e => .error e
  | .ok .missing => .ok ⟨false, .null⟩
  | .ok (.config st) =>
      match jsGet st "aws_session_expiration" with
      | none => .ok ⟨false, .null⟩
      | some _ => .ok ⟨false, .nan⟩
  | .ok (.profileSection credentials) =>
      match jsGet credentials "aws_session_expiration" with
      | none => .ok ⟨false, .null⟩
      | some stored =>
        if stored == "" then .ok ⟨false, .null⟩
        else
          match parseJsDateMillis stored with
          | none => .ok ⟨false, .nan⟩
          | some t =>
            if t - sessionExpirationDelta > now then
              .ok ⟨true, .time (t - sessionExpirationDelta)⟩
            else
              .ok ⟨false, .time (t - sessionExpirationDelta)⟩

/-- Reified observable behaviour of `assumeRoleWithSAML` (lines 60–75): was
`iam.getRole` called, was the clamped-duration warning logged, and which
`DurationSeconds` was passed to `sts.assumeRoleWithSAML`. -/
structure DurationPolicyResult where
  iamQueried : Bool
  warned : Bool
  durationSeconds : Int
deriving DecidableEq, Repr

/-- Lines 61–75: start from the role's default `sessionDuration`; when the
requested `customSessionDuration` is truthy (a nonzero number), query IAM for
the role's `MaxSessionDuration` and use the custom value, clamping it to the
maximum (with a warning, not an error) when it exceeds it. -/
def assumeRoleDurationPolicy (role : Role) (maxSessionDuration : Int)
    (customSessionDuration : Option Int) : DurationPolicyResult :=
  if jsTruthyNumOpt customSessionDuration then
    let c := customSessionDuration.getD 0
    if c > maxSessionDuration then ⟨true, true, maxSessionDuration⟩
    else ⟨true, false, c⟩
  else ⟨false, false, role.sessionDuration⟩

/-- Full observable outcome of `assumeRoleWithSAML`: the duration policy
trace plus the credentials-file content written by `saveCredentials`. -/
structure AssumeRoleOutcome where
  iamQueried : Bool
  warned : Bool
  durationSeconds : Int
  newFileContents : Store
deriving DecidableEq, Repr

/-- Lines 60–92: apply the session-duration policy, perform the STS exchange
(the response is an oracle input, as is the IAM `MaxSessionDuration`), and
persist the returned credential fields via `saveCredentials` (lines 86–91);
store errors propagate unchanged. -/
def assumeRoleWithSAML (file : FsReadResult) (awsProfile : String) (role : Role)
    (customSessionDuration : Option Int) (maxSessionDuration : Int)
    (sts : STSCredentials) : Except String AssumeRoleOutcome :=
  let policy := assumeRoleDurationPolicy role maxSessionDuration customSessionDuration
  match saveCredentials file awsProfile
      ⟨sts.AccessKeyId, sts.SecretAccessKey, sts.Expiration, sts.SessionToken⟩ with
  | .error e => .error e
  | .ok written =>
      .ok ⟨policy.iamQueried, policy.warned, policy.durationSeconds, written⟩

/-! ### Helper lemmas about the association-list object model -/

theorem jsGet_jsSet_self {α : Type} (l : List (String × α)) (k : String) (v : α) :
    jsGet (jsSet l k v) k = some v := by
  induction l with
  | nil => simp [jsSet, jsGet]
  | cons hd tl ih =>
      obtain ⟨k', v'⟩ := hd
      by_cases h : (k' == k) = true
      · simp [jsSet, h, jsGet]
      · simp [jsSet, h, jsGet, ih]

theorem jsGet_jsSet_ne {α : Type} (l : List (String × α)) (k q : String) (v : α)
    (h : q ≠ k) : jsGet (jsSet l k v) q = jsGet l q := by
  induction l with
  | nil =>
      simp [jsSet, jsGet]
      intro h'
      exact absurd h'.symm h
  | cons hd tl ih =>
      obtain ⟨k', v'⟩ := hd
      by_cases hk : (k' == k) = true
      · have : k' = k := by simpa using hk
        subst this
        have : (k' == q) = false := by
          simp only [beq_eq_false_iff_ne]
          exact fun e => h e.symm
        simp [jsSet, jsGet, this]
      · simp [jsSet, hk, jsGet, ih]

/-! ### Claim theorems -/

/-- C7: for every RoleSet `R`, `prepareRoleWithSAML` with no requested role
identifier returns the full RoleSet unchanged (all roles and the same
assertion blob); the function is pure, so there are no side effects. -/
theorem prepareRole_no_custom_role_returns_all (R : RoleSet) :
    prepareRoleWithSAML R none = .ok R := rfl

/-- C10: requesting a custom session duration of `0` (a falsy value in
JavaScript) behaves exactly as if no custom duration had been requested: the
duration-policy trace (no IAM max-duration lookup, no warning, the role's
default duration) and the whole observable outcome coincide with the
no-custom-duration call. -/
theorem assumeRole_zero_duration_default (role : Role) (maxSessionDuration : Int)
    (file : FsReadResult) (awsProfile : String) (sts : STSCredentials) :
    assumeRoleDurationPolicy role maxSessionDuration (some 0)
        = assumeRoleDurationPolicy role maxSessionDuration none
    ∧ assumeRoleWithSAML file awsProfile role (some 0) maxSessionDuration sts
        = assumeRoleWithSAML file awsProfile role none maxSessionDuration sts :=
  ⟨rfl, rfl⟩

/-- C4: whenever a (truthy) custom session duration `d` is requested, the IAM
maximum-session-duration lookup is performed, and the STS exchange receives
the maximum with a non-fatal warning when `d` exceeds it (and `d` itself, with
no warning, otherwise); when no custom duration is requested the role's
default duration is used and the lookup is not performed at all. -/
theorem assumeRole_custom_duration_policy (role : Role)
    (maxSessionDuration d : Int) (hd : d ≠ 0) :
    (assumeRoleDurationPolicy role maxSessionDuration (some d)).iamQueried = true
    ∧ (d > maxSessionDuration →
        (assumeRoleDurationPolicy role maxSessionDuration (some d)).durationSeconds
            = maxSessionDuration
        ∧ (assumeRoleDurationPolicy role maxSessionDuration (some d)).warned = true)
    ∧ (¬d > maxSessionDuration →
        (assumeRoleDurationPolicy role maxSessionDuration (some d)).durationSeconds = d
        ∧ (assumeRoleDurationPolicy role maxSessionDuration (some d)).warned = false)
    ∧ (assumeRoleDurationPolicy role maxSessionDuration none).iamQueried = false
    ∧ (assumeRoleDurationPolicy role maxSessionDuration none).warned = false
    ∧ (assumeRoleDurationPolicy role maxSessionDuration none).durationSeconds
        = role.sessionDuration := by
  have htruthy : jsTruthyNumOpt (some d) = true := by
    simp [jsTruthyNumOpt, hd]
  refine ⟨?_, ?_, ?_, rfl, rfl, rfl⟩
  · by_cases hc : d > maxSessionDuration <;>
      simp [assumeRoleDurationPolicy, htruthy, hc]
  · intro hc
    simp [assumeRoleDurationPolicy, htruthy, hc]
  · intro hc
    simp [assumeRoleDurationPolicy, htruthy, hc]

/-- Witness for C4: role default 3600, requested duration 7200, maximum 4000;
the lookup happens, the exchange is called with 4000 and the warning is
emitted. -/
theorem assumeRole_custom_duration_policy_witness :
    (assumeRoleDurationPolicy ⟨"gsts", "arn:idp/X", "arn:role/A", 3600⟩ 4000
        (some 7200)).iamQueried = true
    ∧ (assumeRoleDurationPolicy ⟨"gsts", "arn:idp/X", "arn:role/A", 3600⟩ 4000
        (some 7200)).durationSeconds = 4000
    ∧ (assumeRoleDurationPolicy ⟨"gsts", "arn:idp/X", "arn:role/A", 3600⟩ 4000
        (some 7200)).warned = true
    ∧ (assumeRoleDurationPolicy ⟨"gsts", "arn:idp/X", "arn:role/A", 3600⟩ 4000
        none).iamQueried = false := by
  have h := assumeRole_custom_duration_policy
    ⟨"gsts", "arn:idp/X", "arn:role/A", 3600⟩ 4000 7200 (by decide)
  exact ⟨h.1, (h.2.1 (by decide)).1, (h.2.1 (by decide)).2, h.2.2.2.1⟩

/-- Counterexample to C5 as stated: with the role identifier `""` (a string,
hence a legal requested identifier) and a RoleSet containing a role whose
`roleArn` is exactly `""`, the guard `if (!customRoleArn)` treats the request
as absent (empty strings are falsy in JavaScript), so the full two-role set is
returned instead of a singleton. -/
theorem prepareRole_empty_arn_cex :
    prepareRoleWithSAML
        ⟨[⟨"role-a", "arn:idp/X", "", 3600⟩,
          ⟨"role-b", "arn:idp/X", "arn:role/B", 3600⟩], "assertion"⟩ (some "")
      = .ok ⟨[⟨"role-a", "arn:idp/X", "", 3600⟩,
              ⟨"role-b", "arn:idp/X", "arn:role/B", 3600⟩], "assertion"⟩
    ∧ (⟨"role-a", "arn:idp/X", "", 3600⟩ : Role).roleArn = ""
    ∧ ([⟨"role-a", "arn:idp/X", "", 3600⟩,
        ⟨"role-b", "arn:idp/X", "arn:role/B", 3600⟩] : List Role).length ≠ 1 := by
  exact ⟨rfl, rfl, by decide⟩

/-- C5 (amended to nonempty requested identifiers): for every RoleSet `R` and
nonempty role identifier `r` matched exactly (case-sensitively) by some role
in `R`, `prepareRoleWithSAML R (some r)` returns a RoleSet holding exactly one
role, whose identifier equals `r`, together with the same assertion blob. -/
theorem prepareRole_custom_role_unique (R : RoleSet) (r : String) (hr : r ≠ "")
    (hmem : ∃ role ∈ R.roles, role.roleArn = r) :
    ∃ role, prepareRoleWithSAML R (some r) = .ok ⟨[role], R.samlAssertion⟩
      ∧ role.roleArn = r := by
  have htruthy : jsTruthyStrOpt (some r) = true := by
    simp [jsTruthyStrOpt, hr]
  cases hfind : R.roles.find? (fun role => role.roleArn == r) with
  | none =>
      exfalso
      obtain ⟨role₀, hin, harn⟩ := hmem
      have := List.find?_eq_none.mp hfind role₀ hin
      simp [harn] at this
  | some role =>
      refine ⟨role, ?_, ?_⟩
      · simp [prepareRoleWithSAML, htruthy, hfind]
      · have := List.find?_some hfind
        simpa using this

/-- Witness for C5's amended theorem: the spec's own scenario, requesting
`arn:role/B` out of two roles. -/
theorem prepareRole_custom_role_unique_witness :
    ∃ role,
      prepareRoleWithSAML
          ⟨[⟨"role-a", "arn:idp/X", "arn:role/A", 3600⟩,
            ⟨"role-b", "arn:idp/X", "arn:role/B", 3600⟩], "assertion"⟩
          (some "arn:role/B")
        = .ok ⟨[role], "assertion"⟩
      ∧ role.roleArn = "arn:role/B" :=
  prepareRole_custom_role_unique
    ⟨[⟨"role-a", "arn:idp/X", "arn:role/A", 3600⟩,
      ⟨"role-b", "arn:idp/X", "arn:role/B", 3600⟩], "assertion"⟩
    "arn:role/B" (by decide)
    ⟨⟨"role-b", "arn:idp/X", "arn:role/B", 3600⟩, by decide, rfl⟩

/-- Counterexample to C6 as stated: with requested identifier `""` and a
RoleSet in which no role has `roleArn = ""`, the falsy-string guard returns
the full RoleSet successfully instead of failing with `RoleNotFoundError`. -/
theorem prepareRole_notfound_empty_arn_cex :
    ([⟨"role-b", "arn:idp/X", "arn:role/B", 3600⟩] : List Role).all
        (fun role => !(role.roleArn == "")) = true
    ∧ prepareRoleWithSAML ⟨[⟨"role-b", "arn:idp/X", "arn:role/B", 3600⟩],
          "assertion"⟩ (some "")
        = .ok ⟨[⟨"role-b", "arn:idp/X", "arn:role/B", 3600⟩], "assertion"⟩
    ∧ prepareRoleWithSAML ⟨[⟨"role-b", "arn:idp/X", "arn:role/B", 3600⟩],
          "assertion"⟩ (some "")
        ≠ .error (.roleNotFound [⟨"role-b", "arn:idp/X", "arn:role/B", 3600⟩]) := by
  exact ⟨by decide, rfl, fun h => Except.noConfusion h⟩

/-- C6 (amended to nonempty requested identifiers): for every RoleSet `R` and
nonempty role identifier `r` matched by no role in `R`,
`prepareRoleWithSAML R (some r)` fails with `RoleNotFoundError` carrying all
of `R`'s roles. -/
theorem prepareRole_role_not_found (R : RoleSet) (r : String) (hr : r ≠ "")
    (habs : ∀ role ∈ R.roles, role.roleArn ≠ r) :
    prepareRoleWithSAML R (some r) = .error (.roleNotFound R.roles) := by
  have htruthy : jsTruthyStrOpt (some r) = true := by
    simp [jsTruthyStrOpt, hr]
  have hfind : R.roles.find? (fun role => role.roleArn == r) = none := by
    rw [List.find?_eq_none]
    intro x hx
    simpa using habs x hx
  simp [prepareRoleWithSAML, htruthy, hfind]

/-- Witness for C6's amended theorem: requesting `arn:role/C`, which is absent
from a one-role set, fails with the error carrying that role list. -/
theorem prepareRole_role_not_found_witness :
    prepareRoleWithSAML ⟨[⟨"role-b", "arn:idp/X", "arn:role/B", 3600⟩],
        "assertion"⟩ (some "arn:role/C")
      = .error (.roleNotFound [⟨"role-b", "arn:idp/X", "arn:role/B", 3600⟩]) :=
  prepareRole_role_not_found
    ⟨[⟨"role-b", "arn:idp/X", "arn:role/B", 3600⟩], "assertion"⟩
    "arn:role/C" (by decide) (by decide)

/-- C2: saving credentials for profile `A` into a store that also holds a
distinct profile `B` read-merges-writes: the written store keeps `B`'s section
(all its fields) identical and replaces only `A`'s entry with the four new
fields. -/
theorem saveCredentials_preserves_other_profiles (st : Store) (A B : String)
    (pA pB : Profile) (c : SessionCredentials) (st' : Store)
    (hAB : B ≠ A) (_hA : jsGet st A = some pA) (hB : jsGet st B = some pB)
    (hsave : saveCredentials (.content st) A c = .ok st') :
    jsGet st' B = some pB ∧ jsGet st' A = some (profileOfCredentials c) := by
  have hst' : st' = jsSet st A (profileOfCredentials c) := by
    have := hsave.symm
    simpa [saveCredentials, loadCredentials, jsTruthyStrOpt] using this
  subst hst'
  constructor
  · rw [jsGet_jsSet_ne st A B _ hAB, hB]
  · exact jsGet_jsSet_self st A _

/-- Witness for C2: a two-profile store; saving under `"work"` leaves the
`"home"` section untouched and rewrites only `"work"`. -/
theorem saveCredentials_preserves_other_profiles_witness :
    jsGet (jsSet [("work", [("aws_session_token", "old")]),
                  ("home", [("aws_access_key_id", "HK")])] "work"
            (profileOfCredentials ⟨"AK2", "SK2", 0, "TOK2"⟩)) "home"
        = some [("aws_access_key_id", "HK")]
    ∧ jsGet (jsSet [("work", [("aws_session_token", "old")]),
                    ("home", [("aws_access_key_id", "HK")])] "work"
              (profileOfCredentials ⟨"AK2", "SK2", 0, "TOK2"⟩)) "work"
        = some (profileOfCredentials ⟨"AK2", "SK2", 0, "TOK2"⟩) :=
  saveCredentials_preserves_other_profiles
    [("work", [("aws_session_token", "old")]),
     ("home", [("aws_access_key_id", "HK")])]
    "work" "home" [("aws_session_token", "old")] [("aws_access_key_id", "HK")]
    ⟨"AK2", "SK2", 0, "TOK2"⟩ _ (by decide) rfl rfl rfl

/-- Counterexample to C3 as stated: with the profile name `""` the round trip
breaks, because `loadCredentials` treats a falsy profile argument as "no
profile requested" and returns the whole parsed mapping, whose own
`aws_access_key_id` field is absent rather than equal to the saved one. -/
theorem save_load_roundtrip_empty_profile_cex :
    saveCredentials (.content []) "" ⟨"AK", "SK", 0, "TOK"⟩
        = .ok [("", profileOfCredentials ⟨"AK", "SK", 0, "TOK"⟩)]
    ∧ loadCredentials (.content [("", profileOfCredentials ⟨"AK", "SK", 0, "TOK"⟩)])
          (some "")
        = .ok (.config [("", profileOfCredentials ⟨"AK", "SK", 0, "TOK"⟩)])
    ∧ jsGet [("", profileOfCredentials ⟨"AK", "SK", 0, "TOK"⟩)] "aws_access_key_id"
        = none :=
  ⟨rfl, rfl, rfl⟩

/-- C3 (amended to nonempty profile names): saving credential set `c` under a
nonempty profile name `p` and loading `p` from the written file yields exactly
the profile section whose four fields are `c`'s fields, with the expiration
rendered by `toISOString`. -/
theorem save_load_roundtrip (file : FsReadResult) (p : String)
    (c : SessionCredentials) (st' : Store) (hp : p ≠ "")
    (hsave : saveCredentials file p c = .ok st') :
    loadCredentials (.content st') (some p)
        = .ok (.profileSection (profileOfCredentials c))
    ∧ jsGet (profileOfCredentials c) "aws_access_key_id" = some c.accessKeyId
    ∧ jsGet (profileOfCredentials c) "aws_secret_access_key" = some c.secretAccessKey
    ∧ jsGet (profileOfCredentials c) "aws_session_expiration"
        = some (toISOString c.sessionExpiration)
    ∧ jsGet (profileOfCredentials c) "aws_session_token" = some c.sessionToken := by
  have hst' : ∃ base, st' = jsSet base p (profileOfCredentials c) := by
    cases file with
    | content st =>
        refine ⟨st, ?_⟩
        have := hsave.symm
        simpa [saveCredentials, loadCredentials, jsTruthyStrOpt] using this
    | ioError code =>
        by_cases hcode : (code == "ENOENT") = true
        · refine ⟨[], ?_⟩
          have := hsave.symm
          simpa [saveCredentials, loadCredentials, hcode] using this
        · exfalso
          have := hsave
          simp [saveCredentials, loadCredentials, hcode] at this
  obtain ⟨base, hbase⟩ := hst'
  subst hbase
  refine ⟨?_, rfl, rfl, rfl, rfl⟩
  simp [loadCredentials, jsTruthyStrOpt, hp, jsGet_jsSet_self]

/-- Witness for C3's amended theorem: save under `"p1"` into an absent file,
then load `"p1"`. -/
theorem save_load_roundtrip_witness :
    loadCredentials
        (.content (jsSet [] "p1" (profileOfCredentials ⟨"AK", "SK", 31000, "TOK"⟩)))
        (some "p1")
      = .ok (.profileSection (profileOfCredentials ⟨"AK", "SK", 31000, "TOK"⟩))
    ∧ jsGet (profileOfCredentials ⟨"AK", "SK", 31000, "TOK"⟩) "aws_access_key_id"
        = some "AK"
    ∧ jsGet (profileOfCredentials ⟨"AK", "SK", 31000, "TOK"⟩) "aws_secret_access_key"
        = some "SK"
    ∧ jsGet (profileOfCredentials ⟨"AK", "SK", 31000, "TOK"⟩) "aws_session_expiration"
        = some (toISOString 31000)
    ∧ jsGet (profileOfCredentials ⟨"AK", "SK", 31000, "TOK"⟩) "aws_session_token"
        = some "TOK" :=
  save_load_roundtrip (.ioError "ENOENT") "p1" ⟨"AK", "SK", 31000, "TOK"⟩
    (jsSet [] "p1" (profileOfCredentials ⟨"AK", "SK", 31000, "TOK"⟩))
    (by decide) rfl

/-- Counterexample to C1 as stated: a stored profile named `""` with a
present, parseable expiration 31 seconds in the future (at `now = 0`).  The
falsy-string guard `if (profile)` makes `loadCredentials` return the whole
parsed config, whose own `aws_session_expiration` property is absent, so the
validity check reports `{ isValid: false, expiresAt: null }` instead of the
claimed `{ isValid: true, expiresAt: 1000 }`. -/
theorem getSessionExpiration_empty_profile_cex :
    jsGet [("", [("aws_session_expiration", "1970-01-01T00:00:31.000Z")])] ""
        = some [("aws_session_expiration", "1970-01-01T00:00:31.000Z")]
    ∧ jsGet [("aws_session_expiration", "1970-01-01T00:00:31.000Z")]
          "aws_session_expiration"
        = some "1970-01-01T00:00:31.000Z"
    ∧ parseJsDateMillis "1970-01-01T00:00:31.000Z" = some 31000
    ∧ getSessionExpirationFromCredentials
        (.content [("", [("aws_session_expiration", "1970-01-01T00:00:31.000Z")])])
        "" 0
        = .ok ⟨false, .null⟩
    ∧ (⟨false, .null⟩ : ValidityResult) ≠ ⟨true, .time 1000⟩ :=
  ⟨rfl, rfl, by decide, rfl, by decide⟩

/-- C1 (amended to nonempty profile names): for a stored profile with
nonempty name whose expiration field is present and denotes timestamp `t`,
the validity check computes the adjusted
expiry `t - sessionExpirationDelta` and returns `isValid = true` with that
adjusted expiry exactly when the adjusted expiry is strictly after `now`, and
`isValid = false` with the same adjusted expiry otherwise; in particular an
expiration exactly 30 seconds after `now` yields `isValid = false` and one
31 seconds after `now` yields `isValid = true`. -/
theorem getSessionExpiration_adjusted_expiry (st : Store) (p : String)
    (credentials : Profile) (stored : String) (t now : Int)
    (hp : p ≠ "") (hsec : jsGet st p = some credentials)
    (hstored : jsGet credentials "aws_session_expiration" = some stored)
    (ht : parseJsDateMillis stored = some t) :
    getSessionExpirationFromCredentials (.content st) p now
        = .ok ⟨decide (t - sessionExpirationDelta > now),
               .time (t - sessionExpirationDelta)⟩
    ∧ (t = now + 30000 →
        getSessionExpirationFromCredentials (.content st) p now
          = .ok ⟨false, .time now⟩)
    ∧ (t = now + 31000 →
        getSessionExpirationFromCredentials (.content st) p now
          = .ok ⟨true, .time (now + 1000)⟩) := by
  have hne : (stored == "") = false := by
    rw [beq_eq_false_iff_ne]
    intro h
    rw [h] at ht
    exact Option.noConfusion ht
  have hload : loadCredentials (.content st) (some p)
      = .ok (.profileSection credentials) := by
    simp [loadCredentials, jsTruthyStrOpt, hp, hsec]
  have hmain : getSessionExpirationFromCredentials (.content st) p now
      = .ok ⟨decide (t - sessionExpirationDelta > now),
             .time (t - sessionExpirationDelta)⟩ := by
    unfold getSessionExpirationFromCredentials
    rw [hload]
    simp only [hstored, hne, Bool.false_eq_true, if_false, ht]
    by_cases hc : t - sessionExpirationDelta > now <;> simp [hc]
  refine ⟨hmain, ?_, ?_⟩
  · intro hteq
    subst hteq
    rw [hmain]
    have h30 : now + 30000 - sessionExpirationDelta = now := by
      simp [sessionExpirationDelta]
    rw [h30]
    simp
  · intro hteq
    subst hteq
    rw [hmain]
    have h31 : now + 31000 - sessionExpirationDelta = now + 1000 := by
      simp [sessionExpirationDelta]
      ring
    rw [h31]
    simp

/-- Witness for C1: profile `"sts"` stores an expiration 31 seconds past the
epoch; at `now = 0` the session is valid until the adjusted expiry 1000 ms,
and at `now = 1000` (exactly 30 seconds before the stored expiration) it is
already invalid. -/
theorem getSessionExpiration_adjusted_expiry_witness :
    getSessionExpirationFromCredentials
        (.content [("sts", [("aws_session_expiration", "1970-01-01T00:00:31.000Z")])])
        "sts" 0
      = .ok ⟨true, .time 1000⟩
    ∧ getSessionExpirationFromCredentials
        (.content [("sts", [("aws_session_expiration", "1970-01-01T00:00:31.000Z")])])
        "sts" 1000
      = .ok ⟨false, .time 1000⟩ := by
  constructor
  · have h := getSessionExpiration_adjusted_expiry
      [("sts", [("aws_session_expiration", "1970-01-01T00:00:31.000Z")])] "sts"
      [("aws_session_expiration", "1970-01-01T00:00:31.000Z")]
      "1970-01-01T00:00:31.000Z" 31000 0 (by decide) rfl rfl (by decide)
    simpa using h.2.2 rfl
  · have h := getSessionExpiration_adjusted_expiry
      [("sts", [("aws_session_expiration", "1970-01-01T00:00:31.000Z")])] "sts"
      [("aws_session_expiration", "1970-01-01T00:00:31.000Z")]
      "1970-01-01T00:00:31.000Z" 31000 1000 (by decide) rfl rfl (by decide)
    simpa using h.2.1 rfl

/-- Counterexample to C8's missing-expiration clause as stated: the profile
named `""` exists and lacks its `aws_session_expiration` field, but the store
also holds a section named `aws_session_expiration`.  The falsy-string guard
`if (profile)` makes `loadCredentials` return the whole config, whose
`aws_session_expiration` property is then that (truthy) section object, and
`new Date(object).getTime()` is `NaN`, so the result is
`{ isValid: false, expiresAt: NaN }` rather than the claimed absent
`expiresAt`. -/
theorem load_missing_expiration_empty_profile_cex :
    jsGet [("", [("aws_access_key_id", "AK")]),
           ("aws_session_expiration", [("comment", "odd section")])] ""
        = some [("aws_access_key_id", "AK")]
    ∧ jsGet [("aws_access_key_id", "AK")] "aws_session_expiration" = none
    ∧ getSessionExpirationFromCredentials
        (.content [("", [("aws_access_key_id", "AK")]),
                   ("aws_session_expiration", [("comment", "odd section")])])
        "" 0
        = .ok ⟨false, .nan⟩
    ∧ ExpiresAtValue.nan ≠ ExpiresAtValue.null :=
  ⟨rfl, rfl, rfl, by decide⟩

/-- C8 (missing-expiration clause amended to nonempty profile names): reading
a nonexistent credentials file (an `ENOENT` failure) yields the explicit
absent result, not an error, both with and without a requested profile; any
other read failure propagates as an error; the validity check on a missing
file reports `{ isValid: false, expiresAt: null }`; and it reports the same
when a nonempty-named profile exists but has no `aws_session_expiration`
field. -/
theorem load_missing_file_is_absent (st : Store) (p : String)
    (credentials : Profile) (now : Int) (e : String)
    (hp : p ≠ "") (he : e ≠ "ENOENT")
    (hsec : jsGet st p = some credentials)
    (hnoexp : jsGet credentials "aws_session_expiration" = none) :
    loadCredentials (.ioError "ENOENT") none = .ok .missing
    ∧ loadCredentials (.ioError "ENOENT") (some p) = .ok .missing
    ∧ loadCredentials (.ioError e) (some p) = .error e
    ∧ getSessionExpirationFromCredentials (.ioError "ENOENT") p now
        = .ok ⟨false, .null⟩
    ∧ getSessionExpirationFromCredentials (.content st) p now
        = .ok ⟨false, .null⟩ := by
  refine ⟨rfl, rfl, ?_, rfl, ?_⟩
  · simp [loadCredentials, he]
  · have hload : loadCredentials (.content st) (some p)
        = .ok (.profileSection credentials) := by
      simp [loadCredentials, jsTruthyStrOpt, hp, hsec]
    unfold getSessionExpirationFromCredentials
    rw [hload]
    simp [hnoexp]

/-- Witness for C8: a store whose `"sts"` profile has only an access key; a
missing file and the expiration-free profile both yield
`{ isValid: false, expiresAt: null }`, and an `EACCES` read failure
propagates. -/
theorem load_missing_file_is_absent_witness :
    loadCredentials (.ioError "ENOENT") none = .ok .missing
    ∧ loadCredentials (.ioError "ENOENT") (some "sts") = .ok .missing
    ∧ loadCredentials (.ioError "EACCES") (some "sts") = .error "EACCES"
    ∧ getSessionExpirationFromCredentials (.ioError "ENOENT") "sts" 0
        = .ok ⟨false, .null⟩
    ∧ getSessionExpirationFromCredentials
        (.content [("sts", [("aws_access_key_id", "AK")])]) "sts" 0
        = .ok ⟨false, .null⟩ :=
  load_missing_file_is_absent [("sts", [("aws_access_key_id", "AK")])] "sts"
    [("aws_access_key_id", "AK")] 0 "EACCES" (by decide) (by decide) rfl rfl
